import Mathlib

/-!
# Verification of the windfoam clarinet-barrel designer core

Shallow embedding of the bore-geometry and acoustic-evaluation pipeline:
profile generation, exterior thickness mapping, the unfolded-outline
builder, the mock and physics-backed simulation adapters, the performance
evaluator, the optimizer cost function, the comparison history, the
session codec, and the in-memory design store.

Python floats are modelled as rationals (`ℚ`); the arithmetic the claims
concern is exact.  Randomness is modelled by passing the draws as explicit
parameters.  JSON serialisation (`json.dumps` / `json.loads`, a faithful
round trip on JSON values) is modelled at the JSON-value level by an
inductive `Json` type.
-/

namespace Windfoam

/-! ## ProfileGenerator -/

/-- `{"Low": 10, "Medium": 30, "High": 60}.get(resolution, 30)` from
`openwind/app/geometry.py` (`generate_barrel_profile`). -/
def resolutionPoints (resolution : String) : Nat :=
  if resolution = "Low" then 10
  else if resolution = "Medium" then 30
  else if resolution = "High" then 60
  else 30

/-- The multiplicative shape modifier applied to the linearly interpolated
diameter in `openwind/app/geometry.py` (`generate_barrel_profile`):
`Tapered` multiplies by `1 + 0.1*frac`, `Reverse Tapered` by
`1 + 0.1*(1-frac)`, `Parabolic` by `1 + 0.15*(frac-0.5)^2`, `Stepped` by
`1.05` when `frac > 0.5`, anything else (including `Cylindrical`) is the
identity. -/
def shapeModifier (bore_shape : String) (fraction : ℚ) : ℚ :=
  if bore_shape = "Tapered" then 1 + (1/10) * fraction
  else if bore_shape = "Reverse Tapered" then 1 + (1/10) * (1 - fraction)
  else if bore_shape = "Parabolic" then 1 + (3/20) * (fraction - 1/2)^2
  else if bore_shape = "Stepped" then (if fraction > 1/2 then 21/20 else 1)
  else 1

/-- `generate_barrel_profile` from `openwind/app/geometry.py` (the
resolution-level variant; the near-identical copy in `openwind/barrel.py`
omits only the dead `num_points < 2` clamp).  The resolution name resolves
to a sample count via `resolutionPoints`, positions are
`i * (length_mm / (num_points - 1))` for `i` in `range(num_points)`, and
diameters are the linear interpolation from `entry_diam` to `exit_diam`
times the shape modifier. -/
def generate_barrel_profile (bore_shape : String)
    (entry_diam exit_diam length_mm : ℚ) (resolution : String) :
    List ℚ × List ℚ :=
  let num_points0 := resolutionPoints resolution
  let num_points := if num_points0 < 2 then 2 else num_points0
  ((List.range num_points).map
      (fun i : ℕ => (i : ℚ) * (length_mm / ((num_points : ℚ) - 1))),
   (List.range num_points).map (fun i : ℕ =>
      let fraction : ℚ := (i : ℚ) / ((num_points : ℚ) - 1)
      (entry_diam + fraction * (exit_diam - entry_diam)) *
        shapeModifier bore_shape fraction))

/-- Shape modifier of the step-resolution variant of
`generate_barrel_profile` in `openwind/app/simulation.py`: constants
`0.05`, `0.05`, `0.1`, and step factor `1.02`. -/
def shapeModifierSim (bore_shape : String) (frac : ℚ) : ℚ :=
  if bore_shape = "Tapered" then 1 + (1/20) * frac
  else if bore_shape = "Reverse Tapered" then 1 + (1/20) * (1 - frac)
  else if bore_shape = "Parabolic" then 1 + (1/10) * (frac - 1/2)^2
  else if bore_shape = "Stepped" then (if frac > 1/2 then 51/50 else 1)
  else 1

/-- `generate_barrel_profile` from `openwind/app/simulation.py`: here
`resolution` is a distance step in mm (clamped below by 1) and the
positions are `list(range(0, length_mm + 1, resolution))`, i.e.
`0, r, 2r, …` up to the largest multiple of `resolution` not exceeding
`length_mm` (`length_mm / resolution + 1` samples, with `/` the integer
floor division of Python `range`). -/
def generate_barrel_profile_sim (bore_shape : String)
    (entry_diam exit_diam : ℚ) (length_mm resolution : ℕ) :
    List ℚ × List ℚ :=
  let res := if resolution < 1 then 1 else resolution
  let count := length_mm / res + 1
  let total_steps := if 1 < count then count - 1 else 1
  ((List.range count).map (fun i : ℕ => ((i * res : ℕ) : ℚ)),
   (List.range count).map (fun i : ℕ =>
      let frac : ℚ := (i : ℚ) / (total_steps : ℚ)
      (entry_diam + frac * (exit_diam - entry_diam)) *
        shapeModifierSim bore_shape frac))

/-! ## Exterior thickness -/

/-- `mock_thickness_map` from `openwind/app/geometry.py` (the copy in
`openwind/barrel.py` differs only in guarding the `len(x_vals) - 1`
denominator with `max 1`).  The empty curve returns the empty list;
otherwise for each index `i` an `outer_factor` is chosen from the exterior
shape (Hourglass: `1.1 - 0.0005 * |x - 0.5*(x_last - x_first)|`;
Bell-like Flare: `1 + 0.2 * i/(n-1)`; Reverse Taper:
`1 + 0.25 * (1 - (i/(n-1) - 0.5)^2)`; Standard: `1.05`; User-Defined:
`1 + 0.05 * i/(n-1)`; default `1.0`), and the thickness is
`(bore_diam * outer_factor - bore_diam) / 2`.  The two parallel input
lists are read by index (Python raises `IndexError` when the diameter
list is shorter; the theorems assume equal lengths, and the out-of-range
default `0` below is never read under that assumption). -/
def mock_thickness_map (x_vals bore_diam_vals : List ℚ)
    (exterior_shape : String) : List ℚ :=
  if x_vals.isEmpty then []
  else
    let length := x_vals.getLastD 0 - x_vals.headD 0
    (List.range x_vals.length).map (fun i =>
      let x := x_vals.getD i 0
      let d := bore_diam_vals.getD i 0
      let fraction : ℚ := (i : ℚ) / ((x_vals.length : ℚ) - 1)
      let outer_factor : ℚ :=
        if exterior_shape = "Hourglass (waist tapered)" then
          11/10 - (1/2000) * |x - (1/2) * length|
        else if exterior_shape = "Bell-like Flare (tuned for resonance)" then
          1 + (1/5) * fraction
        else if exterior_shape = "Reverse Taper (bulged center)" then
          1 + (1/4) * (1 - (fraction - 1/2)^2)
        else if exterior_shape = "Standard (parallel exterior)" then
          21/20
        else if exterior_shape = "User-Defined" then
          1 + (1/20) * fraction
        else 1
      (d * outer_factor - d) / 2)

/-! ## OutlineBuilder -/

/-- One row of the bore-segment table: `start_pos`, `end_pos`,
`start_dia`, `end_dia` (the fields read by
`build_unfolded_bore_outline`). -/
structure BoreSegment where
  start_pos : ℚ
  end_pos : ℚ
  start_dia : ℚ
  end_dia : ℚ
deriving DecidableEq

/-- The top edge of the unfolded outline: walking the (sorted) segments
left to right, each contributes `(start_pos, start_dia/2)` then
`(end_pos, end_dia/2)`. -/
def topEdge (segments : List BoreSegment) : List (ℚ × ℚ) :=
  segments.flatMap (fun seg =>
    [(seg.start_pos, seg.start_dia / 2), (seg.end_pos, seg.end_dia / 2)])

/-- The bottom edge: walking the (sorted) segments in reverse, each
contributes `(end_pos, -(end_dia/2))` then `(start_pos, -(start_dia/2))`. -/
def botEdge (segments : List BoreSegment) : List (ℚ × ℚ) :=
  segments.reverse.flatMap (fun seg =>
    [(seg.end_pos, -(seg.end_dia / 2)), (seg.start_pos, -(seg.start_dia / 2))])

/-- `build_unfolded_bore_outline` from `openwind/app/geometry.py`:
empty input yields `([], [])`; otherwise the segments are sorted by
`start_pos` ascending (Python `sorted` is a stable merge sort, modelled by
`List.mergeSort`), the top and bottom edges are concatenated, and the
x- and y-coordinates are returned as two parallel lists. -/
def build_unfolded_bore_outline (bore_data : List BoreSegment) :
    List ℚ × List ℚ :=
  if bore_data.isEmpty then ([], [])
  else
    let sorted_segments :=
      bore_data.mergeSort (fun a b => decide (a.start_pos ≤ b.start_pos))
    let pts := topEdge sorted_segments ++ botEdge sorted_segments
    (pts.map Prod.fst, pts.map Prod.snd)

/-! ## SimulationAdapter: mock implementation -/

/-- The result dictionary of `run_mock_simulation`
(`openwind/app/simulation.py`). -/
structure MockSimResult where
  f1 : ℚ
  cutoff : ℚ
  resistance : ℚ
  freq : List ℚ
  impedance_curve : List ℚ
  admittance_curve : List ℚ
  harmonicity : ℚ
  brightness : ℚ

/-- `run_mock_simulation` from `openwind/app/simulation.py` (identical
copy in `openwind/barrel.py`).  The random draws are passed explicitly:
`f1d`, `resd`, `harmd`, `brightd` are the rounded scalar draws and
`draw n` is the `n`-th `random.uniform(0.5, 1.5)` impedance draw.
`freq = list(range(100, 2000, 50))` (38 bins), `impedance` is one draw
per bin, and `admittance = [1.0 / imp for imp in impedance]`. -/
def run_mock_simulation (draw : ℕ → ℚ) (f1d resd harmd brightd : ℚ) :
    MockSimResult :=
  let freq := (List.range 38).map (fun i => (100 : ℚ) + 50 * i)
  let impedance := (List.range freq.length).map draw
  let admittance := impedance.map (fun imp => 1 / imp)
  { f1 := f1d
    cutoff := f1d * (11/5)
    resistance := resd
    freq := freq
    impedance_curve := impedance
    admittance_curve := admittance
    harmonicity := harmd
    brightness := brightd }

/-! ## SimulationAdapter: physics-backed implementation -/

/-- `np.linspace(lo, hi, n)`: `n` evenly spaced samples from `lo` to `hi`
inclusive. -/
def linspace (lo hi : ℚ) (n : ℕ) : List ℚ :=
  (List.range n).map (fun i => lo + (hi - lo) * i / (((n - 1 : ℕ) : ℚ)))

/-- `run_impedance_simulation` from
`openwind_ui_app_final/modules/openwind_adapter.py`.  The external
`simulate(...)` call is made for its side effects only; its record is not
used in the returned value.  The transcendental `np.sin` and `np.pi` are
abstracted as parameters `sin` and `pi` (the claims settled here depend
only on the shape of the returned dictionary, not on those values).  The
function returns a dictionary — modelled as an association list — with
exactly the keys `"frequency"`, `"magnitude"` and `"phase"`:
`magnitude = |sin(2*pi*f/1500)| * 1e6` and
`phase = angle(sin(2*pi*f/1500)) * 180 / pi` per frequency sample. -/
def run_impedance_simulation (sin : ℚ → ℚ) (pi : ℚ)
    (bore_profile : List (ℚ × ℚ)) (temperature freqLo freqHi : ℚ) :
    List (String × List ℚ) :=
  let f := linspace freqLo freqHi 500
  let magnitude := f.map (fun x => |sin (2 * pi * x / 1500)| * 1000000)
  let phase := f.map (fun x =>
    (if 0 ≤ sin (2 * pi * x / 1500) then 0 else pi) * 180 / pi)
  [("frequency", f), ("magnitude", magnitude), ("phase", phase)]

/-! ## PerformanceEvaluator -/

/-- The low-resistance comment of `evaluate_barrel_attributes`. -/
def lowResistanceComment : String :=
  "Very free-blowing (low resistance). Requires less air pressure but can sacrifice some control."

/-- The moderate-resistance comment of `evaluate_barrel_attributes`. -/
def moderateResistanceComment : String :=
  "Moderate resistance, balancing control and ease of airflow."

/-- The high-resistance comment of `evaluate_barrel_attributes`. -/
def highResistanceComment : String :=
  "High resistance—requires stronger air support but may offer greater dynamic control."

/-- The dark-timbre comment of `evaluate_barrel_attributes`. -/
def darkComment : String :=
  "Leans toward a darker or warmer timbre."

/-- The moderately-bright comment of `evaluate_barrel_attributes`. -/
def moderatelyBrightComment : String :=
  "Moderately bright—somewhere between dark and brilliant."

/-- The bright comment of `evaluate_barrel_attributes`. -/
def brightComment : String :=
  "Quite bright—clear and projecting tone."

/-- The high-harmonicity comment of `evaluate_barrel_attributes`. -/
def highHarmonicityComment : String :=
  "Overtones align well (high harmonicity)—stable, pure core."

/-- The low-harmonicity comment of `evaluate_barrel_attributes`. -/
def lowHarmonicityComment : String :=
  "Lower harmonicity—overtones may be mismatched, potentially more complex or tricky to voice."

/-- `evaluate_barrel_attributes` from `openwind/app/simulation.py`
(the Dash `html.Ul`/`html.Li` wrapper is presentation plumbing; the list
of comment strings is the embedded content).  Resistance `< 30` is
free-blowing, `< 70` moderate, else high; brightness `< 0.4` dark,
`< 0.6` moderately bright, else bright; harmonicity `≥ 0.85` aligned,
`< 0.75` mismatched, otherwise no comment. -/
def evaluate_barrel_attributes (resistance brightness harmonicity : ℚ) :
    List String :=
  (if resistance < 30 then [lowResistanceComment]
   else if resistance < 70 then [moderateResistanceComment]
   else [highResistanceComment]) ++
  (if brightness < 2/5 then [darkComment]
   else if brightness < 3/5 then [moderatelyBrightComment]
   else [brightComment]) ++
  (if 17/20 ≤ harmonicity then [highHarmonicityComment]
   else if harmonicity < 3/4 then [lowHarmonicityComment]
   else [])

/-! ## Optimizer cost function -/

/-- The fields of the `_run_openwind_simulation` result read by
`BarrelOptimizer._cost_function` (`openwind/deepseek.py`). -/
structure OpenWindSimResult where
  f1 : ℚ
  impedance_curve : List ℚ

/-- `BarrelOptimizer._cost_function` from `openwind/deepseek.py`, with
the internal `_run_openwind_simulation` call abstracted as the oracle
`run_sim` (the claim treats the simulation result for a candidate vector
as given).  `f1_error = |f1 - target_f1| / target_f1`;
`impedance_error = np.mean((impedance_curve - target_impedance)^2)` when
`self.target_impedance` is truthy (a non-empty list), else `0`; the cost
is `0.7 * f1_error + 0.3 * impedance_error`. -/
def cost_function (target_f1 : ℚ) (target_impedance : Option (List ℚ))
    (run_sim : ℚ × ℚ × ℚ → OpenWindSimResult) (params : ℚ × ℚ × ℚ) : ℚ :=
  let result := run_sim params
  let f1_error := |result.f1 - target_f1| / target_f1
  let impedance_error : ℚ :=
    match target_impedance with
    | none => 0
    | some t =>
      if t.isEmpty then 0
      else
        let sq := List.zipWith (fun a b => (a - b)^2) result.impedance_curve t
        sq.sum / (sq.length : ℚ)
  (7/10) * f1_error + (3/10) * impedance_error

/-! ## ComparisonHistory -/

/-- The fields of the stored simulation data read by
`add_to_comparison`. -/
structure SimSnapshot where
  f1 : ℚ
  cutoff : ℚ
  resistance : ℚ
  brightness : ℚ
  harmonicity : ℚ
deriving DecidableEq

/-- One comparison-table entry as built by `add_to_comparison`. -/
structure ComparisonEntry where
  name : String
  f1 : ℚ
  cutoff : ℚ
  resistance : ℚ
  brightness : ℚ
  harmonicity : ℚ
deriving DecidableEq

/-- The entry constructed by `add_to_comparison` from the design name and
the current simulation data. -/
def mkComparisonEntry (name : String) (sim : SimSnapshot) : ComparisonEntry :=
  ⟨name, sim.f1, sim.cutoff, sim.resistance, sim.brightness, sim.harmonicity⟩

/-- Python `l[-n:]`: the last `min n (length l)` elements of `l`, in
order. -/
def takeLast (n : ℕ) (l : List α) : List α :=
  (l.reverse.take n).reverse

/-- The comparison-list update of `add_to_comparison`
(`openwind/app/callbacks.py`; identical copy in `openwind/barrel.py`) on
the compare-button trigger: when no current simulation is stored the list
is returned unchanged (`"No simulation results to compare."`); otherwise
an entry named by `design_name` — or `"Design <len+1>"` when the name is
empty — is appended and the list is truncated to its last 5 elements
(`comparison_data[-5:]`). -/
def add_to_comparison (current_sim : Option SimSnapshot)
    (design_name : String) (comparison_data : List ComparisonEntry) :
    List ComparisonEntry :=
  match current_sim with
  | none => comparison_data
  | some sim =>
    let name :=
      if design_name = "" then
        "Design " ++ toString (comparison_data.length + 1)
      else design_name
    takeLast 5 (comparison_data ++ [mkComparisonEntry name sim])

/-! ## SessionCodec -/

/-- JSON values (`json.dumps` / `json.loads` form a faithful round trip
on these, so the codec is modelled at the JSON-value level; numbers are
rationals). -/
inductive Json where
  | null : Json
  | bool : Bool → Json
  | num : ℚ → Json
  | str : String → Json
  | arr : List Json → Json
  | obj : List (String × Json) → Json

/-- Python `dict` lookup (`d[key]` / `d.get(key)`) on a parsed JSON
object, modelled on the underlying field list. -/
def jget (key : String) : List (String × Json) → Option Json
  | [] => none
  | (k, v) :: rest => if key = k then some v else jget key rest

/-- One `{position, diameter}` record of the serialized `bore_profile`
(the session-file format of §6; `bore_df.to_dict(orient="records")`). -/
def encodeBoreRecord (r : ℚ × ℚ) : Json :=
  Json.obj [("position", Json.num r.1), ("diameter", Json.num r.2)]

/-- The serialized `bore_profile` field. -/
def encodeBoreProfile (bore : List (ℚ × ℚ)) : Json :=
  Json.arr (bore.map encodeBoreRecord)

/-- `save_session` from
`openwind_ui_app_final/modules/session_manager.py`.  The timestamp
(`datetime.now().isoformat()`) is passed explicitly; `material_props or
{}` stores the empty object when `material_props` is `None`. -/
def save_session (bore_profile : List (ℚ × ℚ)) (temperature humidity : ℚ)
    (material_props : Option (List (String × Json))) (notes : String)
    (timestamp : String) : Json :=
  Json.obj
    [("timestamp", Json.str timestamp),
     ("notes", Json.str notes),
     ("bore_profile", encodeBoreProfile bore_profile),
     ("environment",
       Json.obj [("temperature", Json.num temperature),
                 ("humidity", Json.num humidity)]),
     ("material", Json.obj (material_props.getD []))]

/-- Parse one bore-profile record back into a `(position, diameter)`
pair (the record shape fixed by the session-file format of §6). -/
def parseBoreRecord : Json → Option (ℚ × ℚ)
  | Json.obj fields =>
    match jget "position" fields, jget "diameter" fields with
    | some (Json.num p), some (Json.num d) => some (p, d)
    | _, _ => none
  | _ => none

/-- Parse the list of bore-profile records
(`pd.DataFrame(session_data["bore_profile"])`). -/
def parseBoreProfile : List Json → Option (List (ℚ × ℚ))
  | [] => some []
  | r :: rest =>
    match parseBoreRecord r, parseBoreProfile rest with
    | some p, some ps => some (p :: ps)
    | _, _ => none

/-- `load_session` from
`openwind_ui_app_final/modules/session_manager.py`.  Requires the
mandatory `bore_profile` (a list of records) and `environment` (an
object) fields — Python raises `KeyError`/`AttributeError` otherwise,
modelled as `none` — and defaults the optional fields:
`environment.get("temperature", 22)`, `environment.get("humidity", 50)`,
`session_data.get("material", {})`, `session_data.get("notes", "")`.
The loaded temperature, humidity, material and notes are returned as the
JSON values found (or defaulted), exactly as Python returns the parsed
values. -/
def load_session : Json → Option (List (ℚ × ℚ) × Json × Json × Json × Json)
  | Json.obj fields =>
    match jget "bore_profile" fields with
    | some (Json.arr records) =>
      match parseBoreProfile records with
      | some bore =>
        match jget "environment" fields with
        | some (Json.obj env) =>
          let temperature := (jget "temperature" env).getD (Json.num 22)
          let humidity := (jget "humidity" env).getD (Json.num 50)
          let material := (jget "material" fields).getD (Json.obj [])
          let notes := (jget "notes" fields).getD (Json.str "")
          some (bore, temperature, humidity, material, notes)
        | _ => none
      | none => none
    | _ => none
  | _ => none

/-! ## In-memory design store -/

/-- The design dictionary written by `save_design_to_memory`
(`openwind/barrel.py`). -/
structure StoredDesign where
  bore_shape : String
  exterior_shape : String
  entry_diam : ℚ
  exit_diam : ℚ
  length_mm : ℚ
  resolution : String
  material : String
  simulation : Option SimSnapshot

/-- `save_design_to_memory` from `openwind/barrel.py`, with the global
`stored_designs` dictionary passed as explicit state (a total map from
names to optional designs).  A falsy design name (`None` or the empty
string: `if not design_name`) returns immediately without touching the
store; otherwise `stored_designs[design_name] = design_dict`.  The
callback returns `0` (resetting the button click count). -/
def save_design_to_memory (stored_designs : String → Option StoredDesign)
    (design_name : Option String) (bore_shape exterior_shape : String)
    (entry_diam exit_diam length_mm : ℚ) (resolution material : String)
    (sim_data : Option SimSnapshot) :
    (String → Option StoredDesign) × ℕ :=
  match design_name with
  | none => (stored_designs, 0)
  | some name =>
    if name = "" then (stored_designs, 0)
    else
      (fun k =>
        if k = name then
          some ⟨bore_shape, exterior_shape, entry_diam, exit_diam,
                length_mm, resolution, material, sim_data⟩
        else stored_designs k, 0)

/-- A fixed simulation oracle used for concrete cost-function
evaluations. -/
def sim0 : ℚ × ℚ × ℚ → OpenWindSimResult := fun _ => ⟨450, [2, 4]⟩

/-! ## Helper lemmas -/

/-- Every resolution level resolves to at least 2 sample points (10, 30,
60, or the default 30). -/
theorem resolutionPoints_ge_two (r : String) : 2 ≤ resolutionPoints r := by
  unfold resolutionPoints
  split_ifs <;> norm_num

/-- Taking `n` from an append is unaffected by first truncating the
second list to `n`. -/
theorem take_append_take {α : Type*} (n : ℕ) (a b : List α) :
    (a ++ b.take n).take n = (a ++ b).take n := by
  rcases le_total n a.length with h | h
  · rw [List.take_append_of_le_length h, List.take_append_of_le_length h]
  · obtain ⟨m, hm⟩ := Nat.exists_eq_add_of_le h
    subst hm
    rw [List.take_append, List.take_append, List.take_take]
    simp [Nat.min_def]

/-- Truncating to the last `n` elements before appending more does not
change the last `n` elements of the whole. -/
theorem takeLast_append_takeLast {α : Type*} (n : ℕ) (l m : List α) :
    takeLast n (takeLast n l ++ m) = takeLast n (l ++ m) := by
  unfold takeLast
  rw [List.reverse_append, List.reverse_reverse, List.reverse_append]
  rw [take_append_take]

/-- Parsing the encoded bore-profile records recovers the profile. -/
theorem parseBoreProfile_encode (bp : List (ℚ × ℚ)) :
    parseBoreProfile (bp.map encodeBoreRecord) = some bp := by
  induction bp with
  | nil => rfl
  | cons p rest ih =>
    simp [parseBoreProfile, parseBoreRecord, encodeBoreRecord, jget, ih]

/-- Reciprocal lists pointwise multiply to ones. -/
theorem zipWith_one_div_mul {l : List ℚ} (h : ∀ z ∈ l, z ≠ 0) :
    List.zipWith (· * ·) (l.map (fun z => 1 / z)) l =
      List.replicate l.length 1 := by
  induction l with
  | nil => rfl
  | cons a rest ih =>
    have ha : a ≠ 0 := h a (by simp)
    have hrest : ∀ z ∈ rest, z ≠ 0 := fun z hz => h z (by simp [hz])
    have ih' := ih hrest
    simp only [one_div] at ih'
    simp [List.replicate_succ, ih', one_div, inv_mul_cancel₀ ha]

/-- A fixed snapshot used for concrete comparison-history evaluations. -/
def snap0 : SimSnapshot := ⟨0, 0, 0, 0, 0⟩

/-! ## C3: session save/load round trip -/

/-- C3: for every design — a bore profile of position/diameter records,
an environment temperature and humidity, material properties, and notes —
`load_session (save_session d)` succeeds and returns the bore profile,
temperature, humidity, material and notes field-for-field equal to `d`'s
(the rational model is exact, so the equality is exact, in particular
within any tolerance; notes are preserved exactly). -/
theorem save_load_session_roundtrip (bp : List (ℚ × ℚ)) (t h : ℚ)
    (m : List (String × Json)) (notes ts : String) :
    load_session (save_session bp t h (some m) notes ts) =
      some (bp, Json.num t, Json.num h, Json.obj m, Json.str notes) := by
  simp [save_session, load_session, encodeBoreProfile, jget,
    parseBoreProfile_encode]

/-! ## C9: load_session defaults for missing optional fields -/

/-- C9: on any parsed session object containing the `bore_profile` and
`environment` fields, `load_session` does not fail when the optional
fields are absent: missing `notes` defaults to `""`, missing `humidity`
to `50`, missing `temperature` to `22`, and missing `material` to the
empty mapping (shown both with an empty environment and with an
environment carrying only a temperature). -/
theorem load_session_defaults :
    (∀ bp : List (ℚ × ℚ),
      load_session (Json.obj
        [("bore_profile", encodeBoreProfile bp),
         ("environment", Json.obj [])]) =
      some (bp, Json.num 22, Json.num 50, Json.obj [], Json.str "")) ∧
    (∀ (bp : List (ℚ × ℚ)) (t : ℚ),
      load_session (Json.obj
        [("bore_profile", encodeBoreProfile bp),
         ("environment", Json.obj [("temperature", Json.num t)])]) =
      some (bp, Json.num t, Json.num 50, Json.obj [], Json.str "")) := by
  constructor
  · intro bp
    simp [load_session, encodeBoreProfile, jget, parseBoreProfile_encode]
  · intro bp t
    simp [load_session, encodeBoreProfile, jget, parseBoreProfile_encode]

/-! ## C7: performance evaluator thresholds -/

/-- C7: `evaluate_barrel_attributes` at resistance 30, brightness 0.4,
harmonicity 0.80 yields exactly the moderate-resistance comment followed
by the moderately-bright comment and no harmonicity comment; resistance
exactly 30 always lands in the moderate bucket, exactly 70 in the
high-resistance bucket, brightness exactly 0.4 in the moderately-bright
bucket, and any harmonicity in `[0.75, 0.85)` yields exactly the two
resistance/brightness comments and no harmonicity line. -/
theorem evaluate_barrel_attributes_spec :
    evaluate_barrel_attributes 30 (2/5) (4/5) =
      [moderateResistanceComment, moderatelyBrightComment] ∧
    (∀ b h : ℚ, (evaluate_barrel_attributes 30 b h).head? =
      some moderateResistanceComment) ∧
    (∀ b h : ℚ, (evaluate_barrel_attributes 70 b h).head? =
      some highResistanceComment) ∧
    (∀ r h : ℚ, (evaluate_barrel_attributes r (2/5) h)[1]? =
      some moderatelyBrightComment) ∧
    (∀ r b h : ℚ, 3/4 ≤ h → h < 17/20 →
      (evaluate_barrel_attributes r b h).length = 2) := by
  refine ⟨?_, ?_, ?_, ?_, ?_⟩
  · norm_num [evaluate_barrel_attributes]
  · intro b h
    norm_num [evaluate_barrel_attributes]
  · intro b h
    norm_num [evaluate_barrel_attributes]
  · intro r h
    have hb1 : ¬((2:ℚ)/5 < 2/5) := by norm_num
    have hb2 : (2:ℚ)/5 < 3/5 := by norm_num
    simp only [evaluate_barrel_attributes, if_neg hb1, if_pos hb2]
    split_ifs <;> rfl
  · intro r b h h1 h2
    have hh1 : ¬((17:ℚ)/20 ≤ h) := by linarith
    have hh2 : ¬(h < 3/4) := not_lt.mpr h1
    simp only [evaluate_barrel_attributes, if_neg hh1, if_neg hh2]
    split_ifs <;> rfl

/-- C7 witness: the harmonicity-silence conjunct instantiated at
resistance 30, brightness 0.4, harmonicity 0.80. -/
theorem evaluate_barrel_attributes_spec_witness :
    ((3:ℚ)/4 ≤ 4/5 ∧ (4:ℚ)/5 < 17/20) ∧
    (evaluate_barrel_attributes 30 (2/5) (4/5)).length = 2 :=
  ⟨⟨by norm_num, by norm_num⟩,
   evaluate_barrel_attributes_spec.2.2.2.2 30 (2/5) (4/5)
     (by norm_num) (by norm_num)⟩

/-! ## C5: comparison history sliding window -/

/-- C5: starting from any comparison list and performing any non-empty
sequence of additions while a current simulation result is present (and
with non-empty design names, so the entries carry the given names), the
retained list after each addition is exactly the last 5 of the insertion
sequence, in oldest-to-newest order; in particular adding six entries
named D1..D6 to the empty list leaves exactly the entries D2..D6 in that
order. -/
theorem add_to_comparison_fifo :
    (∀ (adds : List (String × SimSnapshot)) (a : String × SimSnapshot)
      (start : List ComparisonEntry),
      (∀ p ∈ a :: adds, p.1 ≠ "") →
      List.foldl (fun l p => add_to_comparison (some p.2) p.1 l) start
          (a :: adds) =
        takeLast 5
          (start ++ (a :: adds).map (fun p => mkComparisonEntry p.1 p.2))) ∧
    List.foldl (fun l p => add_to_comparison (some p.2) p.1 l) []
      [("D1", snap0), ("D2", snap0), ("D3", snap0), ("D4", snap0),
       ("D5", snap0), ("D6", snap0)] =
      [mkComparisonEntry "D2" snap0, mkComparisonEntry "D3" snap0,
       mkComparisonEntry "D4" snap0, mkComparisonEntry "D5" snap0,
       mkComparisonEntry "D6" snap0] := by
  constructor
  · intro adds
    induction adds with
    | nil =>
      intro a start hnames
      have ha : a.1 ≠ "" := hnames a (by simp)
      simp [add_to_comparison, if_neg ha]
    | cons b rest ih =>
      intro a start hnames
      have ha : a.1 ≠ "" := hnames a (by simp)
      have hrest : ∀ p ∈ b :: rest, p.1 ≠ "" := by
        intro p hp
        exact hnames p (List.mem_cons_of_mem a hp)
      calc List.foldl (fun l p => add_to_comparison (some p.2) p.1 l) start
              (a :: b :: rest)
          = List.foldl (fun l p => add_to_comparison (some p.2) p.1 l)
              (takeLast 5 (start ++ [mkComparisonEntry a.1 a.2]))
              (b :: rest) := by
            simp [add_to_comparison, if_neg ha]
        _ = takeLast 5 ((takeLast 5 (start ++ [mkComparisonEntry a.1 a.2])) ++
              (b :: rest).map (fun p => mkComparisonEntry p.1 p.2)) :=
            ih b _ hrest
        _ = takeLast 5
              (start ++
                (a :: b :: rest).map (fun p => mkComparisonEntry p.1 p.2)) := by
            rw [takeLast_append_takeLast]
            simp
  · rfl

/-- C5 witness: the sliding-window law instantiated at a concrete start
list and two concrete additions. -/
theorem add_to_comparison_fifo_witness :
    List.foldl (fun l p => add_to_comparison (some p.2) p.1 l) []
        [("D1", snap0), ("D2", snap0)] =
      takeLast 5
        ([] ++ [("D1", snap0), ("D2", snap0)].map
            (fun p => mkComparisonEntry p.1 p.2)) :=
  add_to_comparison_fifo.1 [("D2", snap0)] ("D1", snap0) [] (by simp)

/-! ## C10: in-memory design store frame condition -/

/-- C10: with a falsy (missing or empty) design name,
`save_design_to_memory` leaves the stored-designs map entirely unchanged;
with a non-empty name it writes exactly the entry keyed by that name and
leaves every other key unchanged. -/
theorem save_design_to_memory_spec
    (stored : String → Option StoredDesign)
    (bore_shape exterior_shape : String) (entry_diam exit_diam lg : ℚ)
    (resolution material : String) (sim_data : Option SimSnapshot) :
    ((save_design_to_memory stored none bore_shape exterior_shape
        entry_diam exit_diam lg resolution material sim_data).1 = stored) ∧
    ((save_design_to_memory stored (some "") bore_shape exterior_shape
        entry_diam exit_diam lg resolution material sim_data).1 = stored) ∧
    (∀ name : String, name ≠ "" →
      (save_design_to_memory stored (some name) bore_shape exterior_shape
          entry_diam exit_diam lg resolution material sim_data).1 name =
        some ⟨bore_shape, exterior_shape, entry_diam, exit_diam, lg,
              resolution, material, sim_data⟩ ∧
      ∀ k : String, k ≠ name →
        (save_design_to_memory stored (some name) bore_shape exterior_shape
            entry_diam exit_diam lg resolution material sim_data).1 k =
          stored k) := by
  refine ⟨rfl, rfl, ?_⟩
  intro name hname
  constructor
  · simp [save_design_to_memory, if_neg hname]
  · intro k hk
    simp [save_design_to_memory, if_neg hname, if_neg hk]

/-- C10 witness: the write conjunct instantiated at a concrete store and
name. -/
theorem save_design_to_memory_spec_witness :
    ("MyBarrel" ≠ "") ∧
    (save_design_to_memory (fun _ => none) (some "MyBarrel") "Cylindrical"
        "Standard (parallel exterior)" 15 15 66 "Medium"
        "African Blackwood" none).1 "MyBarrel" =
      some ⟨"Cylindrical", "Standard (parallel exterior)", 15, 15, 66,
            "Medium", "African Blackwood", none⟩ :=
  ⟨by simp,
   (save_design_to_memory_spec (fun _ => none) "Cylindrical"
      "Standard (parallel exterior)" 15 15 66 "Medium" "African Blackwood"
      none).2.2 "MyBarrel" (by simp) |>.1⟩

/-! ## C6: optimizer cost function -/

/-- C6: for every candidate parameter vector, with the simulation result
for that vector treated as given (the `run_sim` oracle),
`BarrelOptimizer._cost_function` returns
`0.7 * |f1 - target_f1| / target_f1` exactly when no target impedance is
supplied, and
`0.7 * |f1 - target_f1| / target_f1 + 0.3 * mean((impedance_curve - target_impedance)^2)`
when a (non-empty, equal-length) target impedance curve is supplied. -/
theorem cost_function_spec (target_f1 : ℚ)
    (run_sim : ℚ × ℚ × ℚ → OpenWindSimResult) (params : ℚ × ℚ × ℚ) :
    cost_function target_f1 none run_sim params =
      (7/10) * (|(run_sim params).f1 - target_f1| / target_f1) ∧
    (∀ t : List ℚ, t ≠ [] →
      (run_sim params).impedance_curve.length = t.length →
      cost_function target_f1 (some t) run_sim params =
        (7/10) * (|(run_sim params).f1 - target_f1| / target_f1) +
        (3/10) *
          ((List.zipWith (fun a b => (a - b)^2)
              (run_sim params).impedance_curve t).sum / (t.length : ℚ))) := by
  constructor
  · simp [cost_function]
  · intro t ht hlen
    have hne : t.isEmpty = false := by simpa [List.isEmpty_iff] using ht
    simp [cost_function, hne, List.length_zipWith, hlen]

/-- C6 witness: the supplied-target branch instantiated at a concrete
target, oracle and candidate vector. -/
theorem cost_function_spec_witness :
    (([(1:ℚ), 2] : List ℚ) ≠ []) ∧
    (sim0 (15, 15, 66)).impedance_curve.length =
      ([(1:ℚ), 2] : List ℚ).length ∧
    cost_function 440 (some [1, 2]) sim0 (15, 15, 66) =
      (7/10) * (|(sim0 (15, 15, 66)).f1 - 440| / 440) +
      (3/10) *
        ((List.zipWith (fun a b => (a - b)^2)
            (sim0 (15, 15, 66)).impedance_curve [1, 2]).sum /
          ((([(1:ℚ), 2] : List ℚ).length : ℕ) : ℚ)) :=
  ⟨by simp, by simp [sim0],
   (cost_function_spec 440 sim0 (15, 15, 66)).2 [1, 2] (by simp)
     (by simp [sim0])⟩

/-! ## C8: unfolded bore outline -/

/-- C8: `build_unfolded_bore_outline` of the empty list is the empty
outline; a single segment with positions 0 and 10 and both diameters 14
yields exactly the four points (0, 7), (10, 7), (10, -7), (0, -7); and in
general the outline consists of the top-edge points
`(start_pos, start_dia/2), (end_pos, end_dia/2)` of each segment of a
`start_pos`-sorted permutation of the input, followed by the mirrored
negated-y bottom-edge points emitted while walking the sorted segments in
reverse. -/
theorem build_unfolded_bore_outline_spec :
    build_unfolded_bore_outline [] = ([], []) ∧
    build_unfolded_bore_outline [⟨0, 10, 14, 14⟩] =
      ([0, 10, 10, 0], [7, 7, -7, -7]) ∧
    ∀ segs : List BoreSegment, ∃ s : List BoreSegment,
      s.Perm segs ∧
      List.Sorted (fun a b => a.start_pos ≤ b.start_pos) s ∧
      build_unfolded_bore_outline segs =
        ((topEdge s ++ botEdge s).map Prod.fst,
         (topEdge s ++ botEdge s).map Prod.snd) := by
  refine ⟨rfl, ?_, ?_⟩
  · norm_num [build_unfolded_bore_outline, topEdge, botEdge,
      List.mergeSort_singleton]
  · intro segs
    rcases segs with _ | ⟨a, rest⟩
    · exact ⟨[], List.Perm.refl [], List.sorted_nil,
        by simp [build_unfolded_bore_outline, topEdge, botEdge]⟩
    · refine ⟨(a :: rest).mergeSort
          (fun x y => decide (x.start_pos ≤ y.start_pos)),
        List.mergeSort_perm _ _, ?_, ?_⟩
      · have hs := @List.sorted_mergeSort BoreSegment
          (fun x y => decide (x.start_pos ≤ y.start_pos))
          (fun x y z hxy hyz => by
            simp only [decide_eq_true_eq] at *
            exact le_trans hxy hyz)
          (fun x y => by
            rcases le_total x.start_pos y.start_pos with h | h <;> simp [h])
          (a :: rest)
        exact hs.imp (fun h => of_decide_eq_true h)
      · simp [build_unfolded_bore_outline]

/-! ## C2: acoustic-result curve invariants -/

/-- C2 (amended): the curve invariant holds for the mock adapter — for
any impedance draws in `[0.5, 1.5]`, `run_mock_simulation` returns
frequency, impedance and admittance curves of equal length, with no
impedance value zero and `admittance[i] * impedance[i] = 1` pointwise —
while the physics-backed adapter `run_impedance_simulation` returns a
mapping whose keys are exactly `frequency`, `magnitude` and `phase`, so
it carries no admittance curve at all. -/
theorem run_mock_simulation_curve_invariants (draw : ℕ → ℚ)
    (f1d resd harmd brightd : ℚ)
    (hdraw : ∀ n, 1/2 ≤ draw n ∧ draw n ≤ 3/2) :
    (run_mock_simulation draw f1d resd harmd brightd).freq.length =
      (run_mock_simulation draw f1d resd harmd brightd).impedance_curve.length ∧
    (run_mock_simulation draw f1d resd harmd brightd).impedance_curve.length =
      (run_mock_simulation draw f1d resd harmd brightd).admittance_curve.length ∧
    (∀ z ∈ (run_mock_simulation draw f1d resd harmd brightd).impedance_curve,
      z ≠ 0) ∧
    List.zipWith (· * ·)
        (run_mock_simulation draw f1d resd harmd brightd).admittance_curve
        (run_mock_simulation draw f1d resd harmd brightd).impedance_curve =
      List.replicate
        (run_mock_simulation draw f1d resd harmd
          brightd).impedance_curve.length 1 ∧
    (∀ (s : ℚ → ℚ) (p : ℚ) (b : List (ℚ × ℚ)) (temp lo hi : ℚ),
      (run_impedance_simulation s p b temp lo hi).map Prod.fst =
        ["frequency", "magnitude", "phase"]) := by
  have hz : ∀ z ∈ (run_mock_simulation draw f1d resd harmd
      brightd).impedance_curve, z ≠ 0 := by
    intro z hzm
    simp only [run_mock_simulation, List.mem_map] at hzm
    obtain ⟨i, _, rfl⟩ := hzm
    have h1 := (hdraw i).1
    intro h0
    rw [h0] at h1
    norm_num at h1
  have hadm : (run_mock_simulation draw f1d resd harmd
      brightd).admittance_curve =
      (run_mock_simulation draw f1d resd harmd
        brightd).impedance_curve.map (fun z => 1 / z) := rfl
  refine ⟨by simp [run_mock_simulation], by simp [run_mock_simulation],
    hz, ?_, fun s p b temp lo hi => rfl⟩
  rw [hadm, zipWith_one_div_mul hz]

/-- C2 witness: the mock-adapter invariant instantiated at the constant
draw 1. -/
theorem run_mock_simulation_curve_invariants_witness :
    (∀ n : ℕ, 1/2 ≤ (fun _ : ℕ => (1:ℚ)) n ∧ (fun _ : ℕ => (1:ℚ)) n ≤ 3/2) ∧
    ∀ z ∈ (run_mock_simulation (fun _ => 1) 450 50 (4/5)
        (1/2)).impedance_curve, z ≠ 0 :=
  ⟨fun n => ⟨by norm_num, by norm_num⟩,
   (run_mock_simulation_curve_invariants (fun _ => 1) 450 50 (4/5) (1/2)
      (fun n => ⟨by norm_num, by norm_num⟩)).2.2.1⟩

/-- C2 counterexample: the physics-backed adapter cited by the claim
returns a result with no `admittance_curve` (and no `impedance_curve`)
entry, so the claimed invariant over every adapter implementation fails
on it. -/
theorem run_impedance_simulation_counterexample :
    List.lookup "admittance_curve"
      (run_impedance_simulation (fun x => x) 3 [(0, 14)] 22 200 2000) =
      none ∧
    List.lookup "impedance_curve"
      (run_impedance_simulation (fun x => x) 3 [(0, 14)] 22 200 2000) =
      none ∧
    (run_impedance_simulation (fun x => x) 3 [(0, 14)] 22 200 2000).map
      Prod.fst = ["frequency", "magnitude", "phase"] := by
  refine ⟨rfl, rfl, rfl⟩

/-! ## C1: profile generator sampling -/

/-- C1 (amended): for the resolution-level `generate_barrel_profile`
(`openwind/app/geometry.py` and `openwind/barrel.py`), for every bore
shape, entry and exit diameter, positive length, and resolution — which
always resolves to a sample count `n ≥ 2` — the function returns exactly
`n` positions and `n` diameters with
`position[i] = i * length_mm / (n-1)`; consequently the positions are
strictly increasing, the first is 0 and the last equals `length_mm`.
(The step-based variant in `openwind/app/simulation.py` does not satisfy
this: see the counterexample.) -/
theorem generate_barrel_profile_spec (bore_shape : String)
    (entry_diam exit_diam length_mm : ℚ) (resolution : String)
    (hlen : 0 < length_mm) :
    2 ≤ resolutionPoints resolution ∧
    (generate_barrel_profile bore_shape entry_diam exit_diam length_mm
        resolution).1.length = resolutionPoints resolution ∧
    (generate_barrel_profile bore_shape entry_diam exit_diam length_mm
        resolution).2.length = resolutionPoints resolution ∧
    (∀ i, i < resolutionPoints resolution →
      (generate_barrel_profile bore_shape entry_diam exit_diam length_mm
          resolution).1[i]? =
        some ((i : ℚ) *
          (length_mm / ((resolutionPoints resolution : ℚ) - 1)))) ∧
    (generate_barrel_profile bore_shape entry_diam exit_diam length_mm
        resolution).1.Pairwise (· < ·) ∧
    (generate_barrel_profile bore_shape entry_diam exit_diam length_mm
        resolution).1.head? = some 0 ∧
    (generate_barrel_profile bore_shape entry_diam exit_diam length_mm
        resolution).1.getLast? = some length_mm := by
  have h2 : 2 ≤ resolutionPoints resolution :=
    resolutionPoints_ge_two resolution
  have hclamp : (if resolutionPoints resolution < 2 then 2
      else resolutionPoints resolution) = resolutionPoints resolution :=
    if_neg (Nat.not_lt.mpr h2)
  have hx : (generate_barrel_profile bore_shape entry_diam exit_diam
      length_mm resolution).1 =
      (List.range (resolutionPoints resolution)).map
        (fun i : ℕ => (i : ℚ) *
          (length_mm / ((resolutionPoints resolution : ℚ) - 1))) := by
    simp only [generate_barrel_profile, hclamp]
  have hx2 : (generate_barrel_profile bore_shape entry_diam exit_diam
      length_mm resolution).2 =
      (List.range (resolutionPoints resolution)).map (fun i : ℕ =>
        (entry_diam + ((i : ℚ) / ((resolutionPoints resolution : ℚ) - 1)) *
          (exit_diam - entry_diam)) *
          shapeModifier bore_shape
            ((i : ℚ) / ((resolutionPoints resolution : ℚ) - 1))) := by
    simp only [generate_barrel_profile, hclamp]
  have hq : (0:ℚ) < (resolutionPoints resolution : ℚ) - 1 := by
    have hc : (2:ℚ) ≤ (resolutionPoints resolution : ℚ) := by
      exact_mod_cast h2
    linarith
  have hstep : (0:ℚ) < length_mm / ((resolutionPoints resolution : ℚ) - 1) :=
    div_pos hlen hq
  refine ⟨h2, ?_, ?_, ?_, ?_, ?_, ?_⟩
  · rw [hx]; simp
  · rw [hx2]; simp
  · intro i hi
    rw [hx]
    simp [List.getElem?_map, hi]
  · rw [hx]
    exact List.Pairwise.map _
      (fun a b hab =>
        mul_lt_mul_of_pos_right (by exact_mod_cast hab) hstep)
      (List.pairwise_lt_range _)
  · rw [hx]
    obtain ⟨m, hm⟩ : ∃ m, resolutionPoints resolution = m + 1 :=
      ⟨_, (Nat.succ_pred_eq_of_pos (by omega)).symm⟩
    rw [hm, List.range_succ_eq_map]
    simp
  · rw [hx]
    obtain ⟨m, hm⟩ : ∃ m, resolutionPoints resolution = m + 1 :=
      ⟨_, (Nat.succ_pred_eq_of_pos (by omega)).symm⟩
    have hm1 : 1 ≤ m := by omega
    rw [hm, List.range_succ]
    simp only [List.map_append, List.map_cons, List.map_nil,
      List.getLast?_concat]
    have hmne : ((m:ℚ)) ≠ 0 := by
      have : (1:ℚ) ≤ (m:ℚ) := by exact_mod_cast hm1
      linarith
    have hcast : ((m + 1 : ℕ) : ℚ) - 1 = (m : ℚ) := by push_cast; ring
    rw [hcast, mul_comm, div_mul_cancel₀ _ hmne]

/-- C1 witness: the amended property instantiated at the cylindrical
shape, 15 mm diameters, 66 mm length and Low resolution. -/
theorem generate_barrel_profile_spec_witness :
    ((0:ℚ) < 66) ∧
    (generate_barrel_profile "Cylindrical" 15 15 66 "Low").1.getLast? =
      some 66 :=
  ⟨by norm_num,
   (generate_barrel_profile_spec "Cylindrical" 15 15 66 "Low"
      (by norm_num)).2.2.2.2.2.2⟩

/-- C1 counterexample: the step-based `generate_barrel_profile` of
`openwind/app/simulation.py` at `length_mm = 10`, `resolution = 3`
resolves to `n = 4 ≥ 2` samples but its last position is 9, not the
claimed `length_mm = 10` (and position 1 is 3, not `1 * 10/3`). -/
theorem generate_barrel_profile_sim_counterexample :
    (generate_barrel_profile_sim "Cylindrical" 14 14 10 3).1.length = 4 ∧
    (2 ≤ 4) ∧
    (generate_barrel_profile_sim "Cylindrical" 14 14 10 3).1.getLast? =
      some 9 ∧
    ((9:ℚ) ≠ 10) ∧
    (generate_barrel_profile_sim "Cylindrical" 14 14 10 3).1[1]? =
      some 3 ∧
    ((3:ℚ) ≠ 1 * (10 / (4 - 1))) := by
  refine ⟨?_, by norm_num, ?_, by norm_num, ?_, by norm_num⟩
  · norm_num [generate_barrel_profile_sim]
  · norm_num [generate_barrel_profile_sim, List.range_succ]
  · norm_num [generate_barrel_profile_sim, List.range_succ]

/-! ## C4: exterior thickness map -/

/-- C4 (amended): `mock_thickness_map` always returns a thickness
sequence of the same length as the input curve, with the empty curve
yielding the empty sequence; for non-negative bore diameters every
thickness value is ≥ 0 for every exterior shape except Hourglass, and
for Hourglass whenever every sample position lies within 200 mm of the
curve's half-length point (the condition under which the Hourglass
outer factor `1.1 - 0.0005*dist` stays ≥ 1). -/
theorem mock_thickness_map_spec (x_vals bore : List ℚ) (shape : String)
    (hlen : bore.length = x_vals.length)
    (hcurve : x_vals = [] ∨ 2 ≤ x_vals.length)
    (hd : ∀ d ∈ bore, 0 ≤ d) :
    (mock_thickness_map x_vals bore shape).length = x_vals.length ∧
    (x_vals = [] → mock_thickness_map x_vals bore shape = []) ∧
    (shape ≠ "Hourglass (waist tapered)" →
      ∀ t ∈ mock_thickness_map x_vals bore shape, 0 ≤ t) ∧
    ((∀ x ∈ x_vals,
        |x - (1/2) * (x_vals.getLastD 0 - x_vals.headD 0)| ≤ 200) →
      ∀ t ∈ mock_thickness_map x_vals bore shape, 0 ≤ t) := by
  by_cases hemp : x_vals = []
  · subst hemp
    simp [mock_thickness_map]
  · have hne : x_vals.isEmpty = false := by
      simpa [List.isEmpty_iff] using hemp
    have hn2 : 2 ≤ x_vals.length := hcurve.resolve_left hemp
    have hq : (0:ℚ) < (x_vals.length : ℚ) - 1 := by
      have hc : (2:ℚ) ≤ (x_vals.length : ℚ) := by exact_mod_cast hn2
      linarith
    have main : ∀ (_ : shape = "Hourglass (waist tapered)" →
        ∀ x ∈ x_vals,
          |x - (1/2) * (x_vals.getLastD 0 - x_vals.headD 0)| ≤ 200),
        ∀ t ∈ mock_thickness_map x_vals bore shape, 0 ≤ t := by
      intro hallow t ht
      simp only [mock_thickness_map, hne, Bool.false_eq_true, if_false,
        List.mem_map, List.mem_range] at ht
      obtain ⟨i, hi, rfl⟩ := ht
      have hib : i < bore.length := by omega
      have hd0 : 0 ≤ bore.getD i 0 := by
        rw [List.getD_eq_getElem bore 0 hib]
        exact hd _ (List.getElem_mem hib)
      have hfrac0 : 0 ≤ (i:ℚ) / ((x_vals.length : ℚ) - 1) :=
        div_nonneg (by positivity) (le_of_lt hq)
      have hfrac1 : (i:ℚ) / ((x_vals.length : ℚ) - 1) ≤ 1 := by
        rw [div_le_one hq]
        have hc : (i:ℚ) + 1 ≤ (x_vals.length : ℚ) := by exact_mod_cast hi
        linarith
      split_ifs with hs1 hs2 hs3 hs4 hs5
      · have hxmem : x_vals.getD i 0 ∈ x_vals := by
          rw [List.getD_eq_getElem x_vals 0 hi]
          exact List.getElem_mem hi
        have habs := hallow hs1 _ hxmem
        have habs0 : 0 ≤ |x_vals.getD i 0 -
            (1/2) * (x_vals.getLastD 0 - x_vals.headD 0)| := abs_nonneg _
        nlinarith [mul_nonneg hd0 (by linarith :
          (0:ℚ) ≤ (11/10 - (1/2000) * |x_vals.getD i 0 -
            (1/2) * (x_vals.getLastD 0 - x_vals.headD 0)|) - 1)]
      · nlinarith [mul_nonneg hd0 hfrac0]
      · have hsq : ((i:ℚ) / ((x_vals.length : ℚ) - 1) - 1/2)^2 ≤ 1 := by
          nlinarith [hfrac0, hfrac1]
        nlinarith [mul_nonneg hd0 (by linarith :
          (0:ℚ) ≤ 1 - ((i:ℚ) / ((x_vals.length : ℚ) - 1) - 1/2)^2)]
      · nlinarith [hd0]
      · nlinarith [mul_nonneg hd0 hfrac0]
      · nlinarith [hd0]
    refine ⟨?_, fun h => absurd h hemp, ?_, ?_⟩
    · simp [mock_thickness_map, hne]
    · intro hsh
      exact main (fun h => absurd h hsh)
    · intro hbound
      exact main (fun _ => hbound)

/-- C4 witness: the amended non-negativity instantiated at a concrete
two-sample Standard-exterior curve. -/
theorem mock_thickness_map_spec_witness :
    (([(14:ℚ), 14] : List ℚ).length = ([(0:ℚ), 66] : List ℚ).length) ∧
    ∀ t ∈ mock_thickness_map [0, 66] [14, 14]
        "Standard (parallel exterior)", 0 ≤ t :=
  ⟨by simp,
   (mock_thickness_map_spec [0, 66] [14, 14]
      "Standard (parallel exterior)" (by simp) (by simp)
      (by intro d hd; fin_cases hd <;> norm_num)).2.2.1 (by simp)⟩

/-- C4 counterexample: on the Hourglass exterior with the two-sample
curve `x = [0, 500]`, `diameters = [14, 14]`, both positions are 250 mm
from the half-length point, the outer factor is `1.1 - 0.0005*250 =
0.975 < 1`, and `mock_thickness_map` reports the negative thickness
`-7/40` at every sample. -/
theorem mock_thickness_map_hourglass_negative :
    mock_thickness_map [0, 500] [14, 14] "Hourglass (waist tapered)" =
      [-7/40, -7/40] ∧
    ¬((0:ℚ) ≤ -7/40) := by
  constructor
  · norm_num [mock_thickness_map, List.range_succ,
      abs_of_nonpos, abs_of_nonneg]
  · norm_num

end Windfoam
